import Mathlib

/-!
Shallow embedding of `src/isomer/guides/guide_manager.py` (module GuideManager).

The module keeps a registry of named web guides, and `_update_guide` runs a
linear pipeline per guide: conditional HTTP fetch of a KML export, external
tool conversion to GeoJSON (`_translate` / `_runcommand`), JSON load, and a
replace of the named layer's records in the store.  `_update_guides` iterates
the registry.

The store (the `objectmodels` collaborator) is modelled as explicit lists of
layer and geoobject records plus a counter supplying fresh uuids (`std_uuid`).
The outside world (cache file existence and contents, the network, the
conversion tool) is modelled by an environment record; exceptions are
modelled by an explicit result type.  Log emission is modelled for the
warn/error entries the pipeline produces on its abort paths; per-record
debug/verbose entries are elided.
-/

namespace Guides

inductive LogLevel
  | verbose
  | debug
  | warn
  | error
deriving DecidableEq, Repr

abbrev LogEntry := LogLevel × String

/-- A parsed GeoJSON feature: the pipeline only inspects `properties`
(`item['properties']['Name']`); the rest of the payload is opaque and is
carried by the record itself. -/
structure Feature where
  properties : List (String × String)
deriving DecidableEq, Repr

/-- A `layer` record as built at guide_manager.py:170-174. -/
structure Layer where
  uuid : Nat
  name : String
  type : String
deriving DecidableEq, Repr

/-- A `geoobject` record as built at guide_manager.py:188-194. -/
structure GeoObject where
  uuid : Nat
  layer : Nat
  geojson : Feature
  type : String
  name : String
deriving DecidableEq, Repr

/-- The document store: layer and geoobject collections, plus the supply of
fresh uuids (`std_uuid` returns `nextUuid`; freshness is modelled by the
counter exceeding every uuid already present). -/
structure Store where
  layers : List Layer
  geoobjects : List GeoObject
  nextUuid : Nat
deriving DecidableEq, Repr

/-- Outcome of `request.urlopen(...).read().decode('utf-8')`:
`urlError` covers `URLError`/`HTTPError` (the caught classes), `otherExc`
any other exception raised while opening, reading or decoding. -/
inductive FetchOutcome
  | urlError
  | otherExc
  | ok
deriving DecidableEq, Repr

/-- Outcome of running the external GDAL tool: `Popen`/`wait` raised, or the
process exited with the given status code. -/
inductive ToolOutcome
  | spawnError
  | exited (code : Nat)
deriving DecidableEq, Repr

/-- Per-guide state of the outside world for one `_update_guide` call. -/
structure GuideEnv where
  /-- `os.path.exists(geojson_filename)` -/
  geojsonExists : Bool
  /-- what the HTTP fetch does if attempted -/
  fetch : FetchOutcome
  /-- whether `open(kml_filename, 'w')` / `f.write(data)` succeeds -/
  kmlWriteOk : Bool
  /-- what the conversion tool does if run -/
  tool : ToolOutcome
  /-- parsed contents of the geojson file when it is read after a fetch and
  conversion attempt (`none`: the open/read/parse fails or the parsed JSON
  has no feature list) -/
  fileAfterFetch : Option (List Feature)
  /-- parsed contents of the pre-existing geojson cache file when the fetch
  branch is skipped -/
  fileCached : Option (List Feature)
deriving DecidableEq, Repr

/-- Exceptions that can escape `_update_guide`. -/
inductive Exc
  | keyError (k : String)
  | fetchOther
  | writeError
  | loadError
deriving DecidableEq, Repr

/-- Observable outcome of one `_update_guide` call. -/
inductive UpdateResult
  | done
  | skippedFetchError
  | skippedNoFeatures
  | raised (e : Exc)
deriving DecidableEq, Repr

/-- `_runcommand` (guide_manager.py:101-116): spawn the tool, wait, return
`True`; any exception is logged at `error` level and yields `False`.  A
non-zero exit status is not inspected. -/
def runcommand (t : ToolOutcome) : Bool × List LogEntry :=
  match t with
  | .spawnError =>
    (false, [(LogLevel.debug, "Executing command: "),
             (LogLevel.error, "Problem during gdal execution: ")])
  | .exited _ => (true, [(LogLevel.debug, "Executing command: ")])

/-- `_translate` (guide_manager.py:118-128): run the tool, log its boolean
result at `debug` level; the result is otherwise discarded. -/
def translate (t : ToolOutcome) : List LogEntry :=
  (runcommand t).2 ++ [(LogLevel.debug, "Result (Translate): ")]

/-- Phase 1 of `_update_guide` (guide_manager.py:142-153): either an early
exit with a result, or the features read from the geojson file together with
the logs emitted so far. -/
inductive FetchPhase
  | early (r : UpdateResult) (logs : List LogEntry)
  | proceed (file : Option (List Feature)) (logs : List LogEntry)
deriving DecidableEq, Repr

/-- The fetch step: `if not os.path.exists(geojson_filename) or update`,
then `self.guides[guide]` (KeyError when absent), `urlopen` with only
`URLError`/`HTTPError` caught, the KML cache write (outside the try block)
and the conversion; otherwise fall through to reading the cached file. -/
def fetchStep (registry : List String) (env : GuideEnv) (guide : String)
    (update : Bool) : FetchPhase :=
  if !env.geojsonExists || update then
    if registry.contains guide then
      match env.fetch with
      | .urlError =>
        .early .skippedFetchError
          [(LogLevel.warn, "Could not get web guide data:")]
      | .otherExc => .early (.raised .fetchOther) []
      | .ok =>
        if env.kmlWriteOk then .proceed env.fileAfterFetch (translate env.tool)
        else .early (.raised .writeError) []
    else .early (.raised (.keyError guide)) []
  else .proceed env.fileCached []

/-- `layer = objectmodels['layer'].find_one({'name': guide})` followed by
`if clear and layer is not None: layer.delete(); layer = None`
(guide_manager.py:162-166). -/
def clearLayer (guide : String) (clear : Bool) (st : Store) :
    Store × Option Layer :=
  match st.layers.find? (fun l => l.name == guide) with
  | some l =>
    if clear then
      ({ st with layers := st.layers.filter (fun x => x.uuid != l.uuid) }, none)
    else (st, some l)
  | none => (st, none)

/-- `if layer is None: layer_uuid = std_uuid(); ... layer.save()` else
`layer_uuid = layer.uuid` (guide_manager.py:168-177). -/
def ensureLayer (guide : String) (st : Store) (opt : Option Layer) :
    Store × Nat :=
  match opt with
  | none =>
    ({ st with
        layers := st.layers ++ [⟨st.nextUuid, guide, "geoobjects"⟩],
        nextUuid := st.nextUuid + 1 }, st.nextUuid)
  | some l => (st, l.uuid)

/-- `if clear: for item in objectmodels['geoobject'].find({'layer':
layer_uuid}): item.delete()` (guide_manager.py:179-182).  Note the filter
key is the `layer_uuid` resolved AFTER the layer was recreated. -/
def clearGeo (clear : Bool) (layerUuid : Nat) (st : Store) : Store :=
  if clear then
    { st with geoobjects := st.geoobjects.filter (fun g => g.layer != layerUuid) }
  else st

/-- Store and resolved layer uuid after the layer lookup / clear / recreate
block (guide_manager.py:162-177). -/
def storePre (guide : String) (clear : Bool) (st : Store) : Store × Nat :=
  ensureLayer guide (clearLayer guide clear st).1 (clearLayer guide clear st).2

/-- Store after the geoobject deletion loop (guide_manager.py:179-182). -/
def storeCleared (guide : String) (clear : Bool) (st : Store) : Store :=
  clearGeo clear (storePre guide clear st).2 (storePre guide clear st).1

/-- The `locations` accumulation loop (guide_manager.py:184-195): one
geoobject per feature, fresh uuid, resolved layer uuid, payload verbatim,
`'Guide for %s' % (item['properties']['Name'])`; `none` when a feature lacks
the `Name` property (unguarded KeyError). -/
def buildLocations (layerUuid : Nat) :
    List Feature → Nat → Option (List GeoObject × Nat)
  | [], n => some ([], n)
  | f :: fs, n =>
    match f.properties.lookup "Name" with
    | none => none
    | some nm =>
      match buildLocations layerUuid fs (n + 1) with
      | none => none
      | some (locs, fin) =>
        some (⟨n, layerUuid, f, "Skipperguide", "Guide for " ++ nm⟩ :: locs, fin)

/-- The store-mutation tail of `_update_guide` (guide_manager.py:162-198):
layer lookup/clear/recreate, geoobject deletion loop, record construction
and the single `bulk_create`.  A missing `Name` property raises after the
layer mutations but before any insert. -/
def storeStep (guide : String) (clear : Bool) (features : List Feature)
    (st : Store) : UpdateResult × Store :=
  match buildLocations (storePre guide clear st).2 features
      (storeCleared guide clear st).nextUuid with
  | none => (.raised (.keyError "Name"), storeCleared guide clear st)
  | some (locs, fin) =>
    (.done,
     { storeCleared guide clear st with
        geoobjects := (storeCleared guide clear st).geoobjects ++ locs,
        nextUuid := fin })

/-- Phase 2 of `_update_guide` (guide_manager.py:155-198): read and parse the
geojson file (failure raises), abort on an empty feature list, otherwise run
the store mutation. -/
def loadStep (guide : String) (clear : Bool) (st : Store) :
    FetchPhase → UpdateResult × Store × List LogEntry
  | .early r logs => (r, st, logs)
  | .proceed file logs =>
    match file with
    | none => (.raised .loadError, st, logs)
    | some features =>
      if features.length == 0 then
        (.skippedNoFeatures, st, logs ++ [(LogLevel.warn, "No features found!")])
      else
        ((storeStep guide clear features st).1,
         (storeStep guide clear features st).2, logs)

/-- `_update_guide(guide, update=False, clear=True)` (guide_manager.py:
136-198), as a function of the registry, the environment and the store. -/
def updateGuideFn (registry : List String) (env : GuideEnv) (guide : String)
    (update : Bool) (clear : Bool) (st : Store) :
    UpdateResult × Store × List LogEntry :=
  loadStep guide clear st (fetchStep registry env guide update)

/-- The iteration inside `_update_guides` (guide_manager.py:206-210): process
the listed guides in order with default arguments; an exception escaping one
call aborts the remaining iterations and escapes the loop. -/
def runGuides (registry : List String) (env : String → GuideEnv) :
    List String → Store → Option Exc × Store × List LogEntry
  | [], st => (none, st, [])
  | g :: gs, st =>
    match (updateGuideFn registry (env g) g false true st).1 with
    | .raised e =>
      (some e, (updateGuideFn registry (env g) g false true st).2.1,
       (updateGuideFn registry (env g) g false true st).2.2)
    | _ =>
      ((runGuides registry env gs
          (updateGuideFn registry (env g) g false true st).2.1).1,
       (runGuides registry env gs
          (updateGuideFn registry (env g) g false true st).2.1).2.1,
       (updateGuideFn registry (env g) g false true st).2.2 ++
         (runGuides registry env gs
            (updateGuideFn registry (env g) g false true st).2.1).2.2)

/-- `_update_guides` (guide_manager.py:206-210): iterate the whole registry. -/
def updateGuidesFn (registry : List String) (env : String → GuideEnv)
    (st : Store) : Option Exc × Store × List LogEntry :=
  runGuides registry env registry st

/-- The geojson file `_update_guide` ends up reading, as a function of the
environment (the file written after a fetch attempt, or the cached one). -/
def loadedFile (env : GuideEnv) (update : Bool) : Option (List Feature) :=
  if !env.geojsonExists || update then env.fileAfterFetch else env.fileCached

/-- The feature has the `Name` property used for the display name. -/
def hasName (f : Feature) : Bool := (f.properties.lookup "Name").isSome

/-- The layers of the store carrying a given name. -/
def layersNamed (st : Store) (n : String) : List Layer :=
  st.layers.filter (fun l => l.name == n)

/-- Number of geoobjects referencing the layer uuid `u`. -/
def geoCount (st : Store) (u : Nat) : Nat :=
  (st.geoobjects.filter (fun g => g.layer == u)).length

/-- A parsed file whose every feature carries the `Name` property. -/
def safeFile : Option (List Feature) → Bool
  | none => false
  | some fs => fs.all hasName

/-- Environment under which `_update_guide(guide, update=False, clear=True)`
cannot raise: either the cache is used and parses with named features, or
the fetch branch runs and fails with a caught error class, or it succeeds
end to end. -/
def benignEnv (env : GuideEnv) : Bool :=
  if env.geojsonExists then safeFile env.fileCached
  else
    match env.fetch with
    | .urlError => true
    | .otherExc => false
    | .ok => env.kmlWriteOk && safeFile env.fileAfterFetch

/-- A feature carrying the `Name` property. -/
def featA : Feature := ⟨[("Name", "A")]⟩

/-- A feature lacking the `Name` property. -/
def featNoName : Feature := ⟨[("other", "x")]⟩

/-- An environment where the geojson cache file exists with the given parsed
contents, so the fetch branch is skipped on a default call. -/
def cacheEnv (file : Option (List Feature)) : GuideEnv :=
  ⟨true, .ok, true, .exited 0, none, file⟩

/-- An environment with no cache where the HTTP fetch raises
`URLError`/`HTTPError`. -/
def fetchFailEnv : GuideEnv := ⟨false, .urlError, true, .exited 0, none, none⟩

/-- An environment with no cache where reading or decoding the HTTP response
raises an exception outside the caught classes. -/
def otherExcEnv : GuideEnv := ⟨false, .otherExc, true, .exited 0, none, none⟩

def emptyStore : Store := ⟨[], [], 0⟩

/-- A store already holding one revision of layer `g` (uuid 0) and one
geoobject referencing it. -/
def seededStore : Store :=
  ⟨[⟨0, "g", "geoobjects"⟩], [⟨1, 0, featA, "Skipperguide", "Guide for A"⟩], 2⟩

/-- Guide `g1` has a cached feature lacking `Name`; `g2` a well-formed one. -/
def mixedEnvs : String → GuideEnv := fun g =>
  if g == "g1" then cacheEnv (some [featNoName]) else cacheEnv (some [featA])

/-- Guide `a` hits a caught fetch failure; guide `b` succeeds from cache. -/
def benignEnvs : String → GuideEnv := fun g =>
  if g == "a" then fetchFailEnv else cacheEnv (some [featA])

/-- Every guide hits an uncaught exception class while fetching. -/
def allOtherExcEnvs : String → GuideEnv := fun _ => otherExcEnv

theorem eq_singleton_of_mem_of_len_le_one {α : Type} {a : α} {xs : List α}
    (h : a ∈ xs) (hlen : xs.length ≤ 1) : xs = [a] := by
  cases xs with
  | nil => cases h
  | cons x xs' =>
    cases xs' with
    | nil =>
      cases h with
      | head => rfl
      | tail _ h' => cases h'
    | cons y ys => simp at hlen

theorem hasName_false_lookup {f : Feature} (hn : hasName f = false) :
    f.properties.lookup "Name" = none := by
  unfold hasName at hn
  cases h : f.properties.lookup "Name" with
  | none => rfl
  | some nm => rw [h] at hn; simp at hn

theorem hasName_true_lookup {f : Feature} (hn : hasName f = true) :
    ∃ nm, f.properties.lookup "Name" = some nm := by
  unfold hasName at hn
  cases h : f.properties.lookup "Name" with
  | none => rw [h] at hn; simp at hn
  | some nm => exact ⟨nm, rfl⟩

theorem buildLocations_ok : ∀ (features : List Feature) (u n : Nat),
    (∀ f ∈ features, hasName f = true) →
    ∃ locs fin, buildLocations u features n = some (locs, fin) ∧
      locs.length = features.length ∧ ∀ o ∈ locs, o.layer = u := by
  intro features
  induction features with
  | nil =>
    intro u n _
    exact ⟨[], n, rfl, rfl, fun o ho => absurd ho (List.not_mem_nil o)⟩
  | cons f fs ih =>
    intro u n h
    obtain ⟨nm, hnm⟩ := hasName_true_lookup (h f (by simp))
    obtain ⟨locs, fin, heq, hlen, hlay⟩ :=
      ih u (n + 1) (fun g hg => h g (by simp [hg]))
    refine ⟨⟨n, u, f, "Skipperguide", "Guide for " ++ nm⟩ :: locs, fin, ?_, ?_, ?_⟩
    · unfold buildLocations
      rw [hnm, heq]
    · simp [hlen]
    · intro o ho
      rcases List.mem_cons.mp ho with rfl | ho'
      · rfl
      · exact hlay o ho'

theorem buildLocations_none : ∀ (features : List Feature) (u n : Nat) (f : Feature),
    f ∈ features → hasName f = false → buildLocations u features n = none := by
  intro features
  induction features with
  | nil => intro u n f hf; cases hf
  | cons g gs ih =>
    intro u n f hf hn
    unfold buildLocations
    rcases List.mem_cons.mp hf with rfl | hf'
    · rw [hasName_false_lookup hn]
    · cases h : g.properties.lookup "Name" with
      | none => rfl
      | some nm => rw [ih u (n + 1) f hf' hn]

theorem clearLayer_snd_true (guide : String) (st : Store) :
    (clearLayer guide true st).2 = none := by
  unfold clearLayer
  cases st.layers.find? (fun l => l.name == guide) with
  | none => rfl
  | some l => rfl

theorem clearLayer_fst_geo (guide : String) (clear : Bool) (st : Store) :
    (clearLayer guide clear st).1.geoobjects = st.geoobjects := by
  unfold clearLayer
  cases st.layers.find? (fun l => l.name == guide) with
  | none => rfl
  | some l => cases clear <;> rfl

theorem clearLayer_fst_next (guide : String) (clear : Bool) (st : Store) :
    (clearLayer guide clear st).1.nextUuid = st.nextUuid := by
  unfold clearLayer
  cases st.layers.find? (fun l => l.name == guide) with
  | none => rfl
  | some l => cases clear <;> rfl

theorem clearLayer_true_named (guide : String) (st : Store)
    (hlen : (layersNamed st guide).length ≤ 1) :
    layersNamed (clearLayer guide true st).1 guide = [] := by
  unfold clearLayer
  cases hf : st.layers.find? (fun l => l.name == guide) with
  | none =>
    unfold layersNamed
    exact List.filter_eq_nil_iff.mpr (List.find?_eq_none.mp hf)
  | some l =>
    have hp := @List.find?_some Layer (fun x => x.name == guide) l st.layers hf
    have hl : l ∈ layersNamed st guide :=
      List.mem_filter.mpr ⟨List.mem_of_find?_eq_some hf, hp⟩
    have heq : layersNamed st guide = [l] :=
      eq_singleton_of_mem_of_len_le_one hl hlen
    unfold layersNamed
    apply List.filter_eq_nil_iff.mpr
    intro a ha hname
    have hau : (a.uuid != l.uuid) = true := (List.mem_filter.mp ha).2
    have hmem : a ∈ layersNamed st guide :=
      List.mem_filter.mpr ⟨List.mem_of_mem_filter ha, hname⟩
    rw [heq] at hmem
    have : a = l := by simpa using hmem
    subst this
    simp at hau

theorem storePre_true_snd (guide : String) (st : Store) :
    (storePre guide true st).2 = st.nextUuid := by
  unfold storePre
  rw [clearLayer_snd_true]
  show (clearLayer guide true st).1.nextUuid = st.nextUuid
  exact clearLayer_fst_next guide true st

theorem storePre_true_layers (guide : String) (st : Store) :
    (storePre guide true st).1.layers =
      (clearLayer guide true st).1.layers ++ [⟨st.nextUuid, guide, "geoobjects"⟩] := by
  unfold storePre
  rw [clearLayer_snd_true]
  show (clearLayer guide true st).1.layers ++
      [⟨(clearLayer guide true st).1.nextUuid, guide, "geoobjects"⟩] = _
  rw [clearLayer_fst_next]

theorem storePre_fst_geo (guide : String) (clear : Bool) (st : Store) :
    (storePre guide clear st).1.geoobjects = st.geoobjects := by
  unfold storePre
  cases (clearLayer guide clear st).2 with
  | none =>
    show (clearLayer guide clear st).1.geoobjects = st.geoobjects
    exact clearLayer_fst_geo guide clear st
  | some l =>
    show (clearLayer guide clear st).1.geoobjects = st.geoobjects
    exact clearLayer_fst_geo guide clear st

theorem storeCleared_layers (guide : String) (clear : Bool) (st : Store) :
    (storeCleared guide clear st).layers = (storePre guide clear st).1.layers := by
  unfold storeCleared clearGeo
  cases clear <;> rfl

theorem storeCleared_true_geo (guide : String) (st : Store) :
    (storeCleared guide true st).geoobjects =
      st.geoobjects.filter (fun g => g.layer != st.nextUuid) := by
  unfold storeCleared clearGeo
  show (storePre guide true st).1.geoobjects.filter
      (fun g => g.layer != (storePre guide true st).2) = _
  rw [storePre_fst_geo, storePre_true_snd]

theorem storeStep_done_of_names (guide : String) (clear : Bool)
    (features : List Feature) (st : Store)
    (h : ∀ f ∈ features, hasName f = true) :
    (storeStep guide clear features st).1 = .done := by
  obtain ⟨locs, fin, heq, -, -⟩ :=
    buildLocations_ok features (storePre guide clear st).2
      (storeCleared guide clear st).nextUuid h
  unfold storeStep
  rw [heq]

theorem storeStep_missing (guide : String) (clear : Bool)
    (features : List Feature) (st : Store) (f : Feature)
    (hf : f ∈ features) (hn : hasName f = false) :
    (storeStep guide clear features st).1 = .raised (.keyError "Name") ∧
    ∀ o ∈ (storeStep guide clear features st).2.geoobjects, o ∈ st.geoobjects := by
  have heq := buildLocations_none features (storePre guide clear st).2
      (storeCleared guide clear st).nextUuid f hf hn
  constructor
  · unfold storeStep; rw [heq]
  · unfold storeStep; rw [heq]
    intro o ho
    unfold storeCleared clearGeo at ho
    cases clear with
    | false =>
      have ho' : o ∈ (storePre guide false st).1.geoobjects := ho
      rw [storePre_fst_geo] at ho'
      exact ho'
    | true =>
      have ho' : o ∈ (storePre guide true st).1.geoobjects.filter
          (fun g => g.layer != (storePre guide true st).2) := ho
      have ho'' := List.mem_of_mem_filter ho'
      rw [storePre_fst_geo] at ho''
      exact ho''

theorem storeStep_clear_spec (guide : String) (features : List Feature) (st : Store)
    (hlen : (layersNamed st guide).length ≤ 1)
    (h : ∀ f ∈ features, hasName f = true) :
    (storeStep guide true features st).1 = .done ∧
    layersNamed (storeStep guide true features st).2 guide =
      [⟨st.nextUuid, guide, "geoobjects"⟩] ∧
    geoCount (storeStep guide true features st).2 st.nextUuid = features.length := by
  obtain ⟨locs, fin, heq, hlocs, hlay⟩ :=
    buildLocations_ok features (storePre guide true st).2
      (storeCleared guide true st).nextUuid h
  have hu : (storePre guide true st).2 = st.nextUuid := storePre_true_snd guide st
  rw [hu] at heq hlay
  refine ⟨?_, ?_, ?_⟩
  · unfold storeStep
    rw [hu, heq]
  · unfold storeStep
    rw [hu, heq]
    show (storeCleared guide true st).layers.filter (fun l => l.name == guide) =
      [⟨st.nextUuid, guide, "geoobjects"⟩]
    rw [storeCleared_layers, storePre_true_layers, List.filter_append]
    rw [show (clearLayer guide true st).1.layers.filter (fun l => l.name == guide) = []
      from clearLayer_true_named guide st hlen]
    simp
  · unfold storeStep
    rw [hu, heq]
    show (((storeCleared guide true st).geoobjects ++ locs).filter
      (fun g => g.layer == st.nextUuid)).length = features.length
    rw [List.filter_append, storeCleared_true_geo, List.filter_filter]
    have h1 : st.geoobjects.filter
        (fun a => (a.layer == st.nextUuid) && (a.layer != st.nextUuid)) = [] := by
      apply List.filter_eq_nil_iff.mpr
      intro a _ hcontra
      simp at hcontra
    have h2 : locs.filter (fun g => g.layer == st.nextUuid) = locs := by
      apply List.filter_eq_self.mpr
      intro o ho
      simp [hlay o ho]
    rw [h1, h2, List.nil_append, hlocs]

theorem fetchStep_proceed_file (registry : List String) (env : GuideEnv)
    (guide : String) (update : Bool) (file : Option (List Feature))
    (logs : List LogEntry)
    (h : fetchStep registry env guide update = .proceed file logs) :
    loadedFile env update = file := by
  unfold fetchStep at h
  unfold loadedFile
  by_cases hb : (!env.geojsonExists || update) = true
  · rw [if_pos hb] at h
    rw [if_pos hb]
    by_cases hm : registry.contains guide = true
    · rw [if_pos hm] at h
      cases hf : env.fetch <;> rw [hf] at h
      · cases h
      · cases h
      · by_cases hk : env.kmlWriteOk = true
        · rw [if_pos hk] at h
          exact (FetchPhase.proceed.inj h).1
        · rw [if_neg hk] at h
          cases h
    · rw [if_neg hm] at h
      cases h
  · rw [if_neg hb] at h
    rw [if_neg hb]
    exact (FetchPhase.proceed.inj h).1

theorem loadStep_early_store (guide : String) (clear : Bool) (st : Store)
    (r : UpdateResult) (logs : List LogEntry) :
    (loadStep guide clear st (.early r logs)).2.1 = st := rfl

theorem loadStep_clear_spec (guide : String) (st : Store)
    (file : Option (List Feature)) (logs : List LogEntry)
    (hlen : (layersNamed st guide).length ≤ 1)
    (hnm : ∀ f ∈ file.getD [], hasName f = true) :
    (loadStep guide true st (.proceed file logs)).2.1 = st ∨
    ∃ fs u, file = some fs ∧
      layersNamed (loadStep guide true st (.proceed file logs)).2.1 guide =
        [⟨u, guide, "geoobjects"⟩] ∧
      geoCount (loadStep guide true st (.proceed file logs)).2.1 u = fs.length := by
  cases file with
  | none => left; rfl
  | some features =>
    simp only [loadStep]
    by_cases h0 : (features.length == 0) = true
    · left
      rw [if_pos h0]
    · right
      have hspec := storeStep_clear_spec guide features st hlen (by simpa using hnm)
      refine ⟨features, st.nextUuid, rfl, ?_, ?_⟩
      · rw [if_neg h0]
        exact hspec.2.1
      · rw [if_neg h0]
        exact hspec.2.2

theorem fetchStep_benign (registry : List String) (env : GuideEnv) (guide : String)
    (hmem : registry.contains guide = true) (hb : benignEnv env = true) :
    (∃ logs, fetchStep registry env guide false = .early .skippedFetchError logs) ∨
    (∃ file logs, fetchStep registry env guide false = .proceed file logs ∧
      safeFile file = true) := by
  unfold benignEnv at hb
  cases hge : env.geojsonExists with
  | true =>
    rw [hge] at hb
    rw [if_pos rfl] at hb
    right
    refine ⟨env.fileCached, [], ?_, hb⟩
    simp [fetchStep, hge]
  | false =>
    rw [hge] at hb
    rw [if_neg Bool.false_ne_true] at hb
    cases hf : env.fetch with
    | urlError =>
      left
      refine ⟨[(LogLevel.warn, "Could not get web guide data:")], ?_⟩
      simp [fetchStep, hge, hmem, hf]
      simpa using hmem
    | otherExc => rw [hf] at hb; simp at hb
    | ok =>
      rw [hf] at hb
      simp only [Bool.and_eq_true] at hb
      right
      refine ⟨env.fileAfterFetch, translate env.tool, ?_, hb.2⟩
      simp [fetchStep, hge, hmem, hf, hb.1]
      simpa using hmem

theorem safeFile_features {file : Option (List Feature)} (h : safeFile file = true) :
    ∃ fs, file = some fs ∧ ∀ f ∈ fs, hasName f = true := by
  cases file with
  | none => simp [safeFile] at h
  | some fs =>
    refine ⟨fs, rfl, ?_⟩
    unfold safeFile at h
    simpa [List.all_eq_true, hasName] using h

theorem updateGuide_benign_not_raised (registry : List String) (env : GuideEnv)
    (guide : String) (st : Store)
    (hmem : registry.contains guide = true) (hb : benignEnv env = true) :
    ∀ e, (updateGuideFn registry env guide false true st).1 ≠ .raised e := by
  intro e
  unfold updateGuideFn
  rcases fetchStep_benign registry env guide hmem hb with ⟨logs, hfs⟩ | ⟨file, logs, hfs, hsafe⟩
  · rw [hfs]
    intro hcontra
    cases hcontra
  · rw [hfs]
    obtain ⟨fs, rfl, hnames⟩ := safeFile_features hsafe
    simp only [loadStep]
    by_cases h0 : (fs.length == 0) = true
    · rw [if_pos h0]
      intro hcontra
      cases hcontra
    · rw [if_neg h0]
      intro hcontra
      have hdone := storeStep_done_of_names guide true fs st hnames
      rw [hdone] at hcontra
      cases hcontra

theorem runGuides_none (registry : List String) (env : String → GuideEnv) :
    ∀ (guides : List String) (st : Store),
    (∀ g ∈ guides, registry.contains g = true ∧ benignEnv (env g) = true) →
    (runGuides registry env guides st).1 = none := by
  intro guides
  induction guides with
  | nil => intro st _; rfl
  | cons g gs ih =>
    intro st h
    have hg := h g (by simp)
    have hnr := updateGuide_benign_not_raised registry (env g) g st hg.1 hg.2
    unfold runGuides
    cases hr : (updateGuideFn registry (env g) g false true st).1 with
    | raised e => exact absurd hr (hnr e)
    | done =>
      simpa using ih ((updateGuideFn registry (env g) g false true st).2.1)
        (fun x hx => h x (by simp [hx]))
    | skippedFetchError =>
      simpa using ih ((updateGuideFn registry (env g) g false true st).2.1)
        (fun x hx => h x (by simp [hx]))
    | skippedNoFeatures =>
      simpa using ih ((updateGuideFn registry (env g) g false true st).2.1)
        (fun x hx => h x (by simp [hx]))

theorem loadStep_logs_indep (guide : String) (clear : Bool) (st : Store)
    (file : Option (List Feature)) (logsA logsB : List LogEntry) :
    (loadStep guide clear st (.proceed file logsA)).1 =
      (loadStep guide clear st (.proceed file logsB)).1 ∧
    (loadStep guide clear st (.proceed file logsA)).2.1 =
      (loadStep guide clear st (.proceed file logsB)).2.1 := by
  cases file with
  | none => exact ⟨rfl, rfl⟩
  | some features =>
    simp only [loadStep]
    by_cases h0 : (features.length == 0) = true
    · rw [if_pos h0, if_pos h0]
      exact ⟨rfl, rfl⟩
    · rw [if_neg h0, if_neg h0]
      exact ⟨rfl, rfl⟩

theorem fetchStep_tool (registry : List String) (env : GuideEnv) (t : ToolOutcome)
    (guide : String) (update : Bool) :
    fetchStep registry { env with tool := t } guide update =
      fetchStep registry env guide update ∨
    ∃ file logsA logsB,
      fetchStep registry { env with tool := t } guide update = .proceed file logsA ∧
      fetchStep registry env guide update = .proceed file logsB := by
  rcases env with ⟨ge, fe, kw, tl, fa, fc⟩
  by_cases hb : (!ge || update) = true
  · by_cases hm : registry.contains guide = true
    · have hm' : guide ∈ registry := by simpa using hm
      cases fe with
      | urlError => left; simp [fetchStep, hb, hm']
      | otherExc => left; simp [fetchStep, hb, hm']
      | ok =>
        by_cases hk : kw = true
        · right
          refine ⟨fa, translate t, translate tl, ?_, ?_⟩ <;>
            simp [fetchStep, hb, hm', hk]
        · left
          simp [fetchStep, hb, hm', hk]
    · have hm' : guide ∉ registry := by simpa using hm
      left
      simp [fetchStep, hb, hm']
  · left
    simp [fetchStep, hb]

/-- Claim C1: the spec's full-replace property — after a completed
`updateGuide(name, clearExisting=true)` no geoobject of the previous layer
revision survives — is VIOLATED by the code.  The deletion loop at
guide_manager.py:180 queries `{'layer': layer_uuid}` with the uuid of the
freshly recreated layer (the old layer's uuid was discarded at line 165-166),
so the old revision's geoobject survives as an orphan: after the call
completes, a geoobject referencing uuid 0 remains while no layer has uuid 0. -/
theorem c1_full_replace_violated :
    (updateGuideFn ["g"] (cacheEnv (some [featA])) "g" false true seededStore).1 = .done ∧
    (⟨1, 0, featA, "Skipperguide", "Guide for A"⟩ : GeoObject) ∈
      (updateGuideFn ["g"] (cacheEnv (some [featA])) "g" false true seededStore).2.1.geoobjects ∧
    ∀ l ∈ (updateGuideFn ["g"] (cacheEnv (some [featA])) "g" false true
        seededStore).2.1.layers, l.uuid ≠ 0 := by
  decide

/-- Claim C2, counterexample: with a cached collection of one feature lacking
`Name`, the default call raises after the layer delete/recreate but before
any insert: the store is changed, yet no layer's referencing-geoobject count
equals the parsed feature count (1), so neither disjunct of the claim holds. -/
theorem c2_counterexample :
    loadedFile (cacheEnv (some [featNoName])) false = some [featNoName] ∧
    (updateGuideFn ["g"] (cacheEnv (some [featNoName])) "g" false true emptyStore).2.1 ≠
      emptyStore ∧
    ∀ l ∈ (updateGuideFn ["g"] (cacheEnv (some [featNoName])) "g" false true
        emptyStore).2.1.layers,
      geoCount (updateGuideFn ["g"] (cacheEnv (some [featNoName])) "g" false true
        emptyStore).2.1 l.uuid ≠ 1 := by
  decide

/-- Claim C2 as amended: for a registered guide, provided the store holds at
most one layer with the guide's name and every feature of the GeoJSON that
gets loaded carries the `Name` property, `updateGuide` with default
arguments either leaves the store unchanged or leaves exactly one layer with
the guide's name whose referencing-geoobject count equals the parsed
feature count. -/
theorem c2_amended_replace_or_unchanged (registry : List String) (env : GuideEnv)
    (guide : String) (st : Store)
    (_hmem : registry.contains guide = true)
    (hlen : (layersNamed st guide).length ≤ 1)
    (hnm : ∀ f ∈ (loadedFile env false).getD [], hasName f = true) :
    (updateGuideFn registry env guide false true st).2.1 = st ∨
    ∃ fs u, loadedFile env false = some fs ∧
      layersNamed (updateGuideFn registry env guide false true st).2.1 guide =
        [⟨u, guide, "geoobjects"⟩] ∧
      geoCount (updateGuideFn registry env guide false true st).2.1 u = fs.length := by
  unfold updateGuideFn
  cases hfp : fetchStep registry env guide false with
  | early r logs => left; rfl
  | proceed file logs =>
    have hfile : loadedFile env false = file :=
      fetchStep_proceed_file registry env guide false file logs hfp
    rw [hfile] at hnm
    rcases loadStep_clear_spec guide st file logs hlen hnm with h | ⟨fs, u, hfs, h1, h2⟩
    · left; exact h
    · right; exact ⟨fs, u, hfile.trans hfs, h1, h2⟩

/-- Witness for C2: the amended theorem applied at a concrete registered
guide with a well-formed one-feature cache. -/
theorem c2_witness :
    (["g"].contains "g" = true) ∧
    ((layersNamed emptyStore "g").length ≤ 1) ∧
    ((updateGuideFn ["g"] (cacheEnv (some [featA])) "g" false true emptyStore).2.1 =
        emptyStore ∨
      ∃ fs u, loadedFile (cacheEnv (some [featA])) false = some fs ∧
        layersNamed (updateGuideFn ["g"] (cacheEnv (some [featA])) "g" false true
          emptyStore).2.1 "g" = [⟨u, "g", "geoobjects"⟩] ∧
        geoCount (updateGuideFn ["g"] (cacheEnv (some [featA])) "g" false true
          emptyStore).2.1 u = fs.length) :=
  ⟨by decide, by decide,
    c2_amended_replace_or_unchanged ["g"] (cacheEnv (some [featA])) "g" emptyStore
      (by decide) (by decide) (by decide)⟩

/-- Claim C3: idempotence of a second default call fails on the code, for
the same reason as C1: the second call deletes the first call's layer record
but not its geoobjects, so geoobjects accumulate (1 after one call, 2 after
two) and the resulting store differs from the single-call store. -/
theorem c3_second_call_not_idempotent :
    ((updateGuideFn ["g"] (cacheEnv (some [featA])) "g" false true
        emptyStore).2.1.geoobjects.length = 1) ∧
    ((updateGuideFn ["g"] (cacheEnv (some [featA])) "g" false true
        (updateGuideFn ["g"] (cacheEnv (some [featA])) "g" false true
          emptyStore).2.1).2.1.geoobjects.length = 2) ∧
    (updateGuideFn ["g"] (cacheEnv (some [featA])) "g" false true
        (updateGuideFn ["g"] (cacheEnv (some [featA])) "g" false true
          emptyStore).2.1).2.1 ≠
      (updateGuideFn ["g"] (cacheEnv (some [featA])) "g" false true emptyStore).2.1 := by
  decide

/-- Claim C4, counterexample: over registry `[g1, g2]` where `g1`'s cached
collection has a feature lacking `Name`, the KeyError escapes
`_update_guides` (the claim says no exception ever escapes) and `g2` is
never processed — no layer named `g2` exists afterwards even though `g2`'s
environment would have produced one. -/
theorem c4_counterexample :
    (updateGuidesFn ["g1", "g2"] mixedEnvs emptyStore).1 = some (.keyError "Name") ∧
    layersNamed (updateGuidesFn ["g1", "g2"] mixedEnvs emptyStore).2.1 "g2" = [] := by
  decide

/-- Claim C4 as amended: `updateAll` processes every registry guide in order
and raises nothing, provided each guide's environment only fails in the
contained ways (caught fetch error classes, or a parseable loaded file whose
features all carry `Name`; empty feature lists are fine).  Unguarded
exceptions (missing `Name`, unreadable/unparseable file, non-caught fetch
exception) do escape and abort the iteration, as C10 and the counterexample
show. -/
theorem c4_amended_contained_failures (registry : List String)
    (env : String → GuideEnv) (st : Store)
    (hb : ∀ g ∈ registry, benignEnv (env g) = true) :
    (updateGuidesFn registry env st).1 = none := by
  unfold updateGuidesFn
  apply runGuides_none
  intro g hg
  exact ⟨List.elem_iff.mpr hg, hb g hg⟩

/-- Witness for C4: one guide whose fetch fails with a caught error followed
by one that succeeds; no exception escapes. -/
theorem c4_witness :
    (∀ g ∈ ["a", "b"], benignEnv (benignEnvs g) = true) ∧
    (updateGuidesFn ["a", "b"] benignEnvs emptyStore).1 = none :=
  ⟨by decide, c4_amended_contained_failures ["a", "b"] benignEnvs emptyStore (by decide)⟩

/-- Claim C5, counterexample: for the unregistered name `zz`, when the
geojson cache file exists and no refresh is forced, the registry is never
consulted — the call completes successfully from the cached file instead of
failing with a lookup error. -/
theorem c5_counterexample :
    (["g"].contains "zz" = false) ∧
    (updateGuideFn ["g"] (cacheEnv (some [featA])) "zz" false true emptyStore).1 =
      .done := by
  decide

/-- Claim C5 as amended: an unregistered guide name fails with the unguarded
lookup KeyError (propagated, store untouched) exactly when the fetch branch
runs, i.e. when the geojson cache is absent or a refresh is forced. -/
theorem c5_amended_lookup_only_on_fetch (registry : List String) (env : GuideEnv)
    (guide : String) (update clear : Bool) (st : Store)
    (hmem : registry.contains guide = false)
    (hbranch : env.geojsonExists = false ∨ update = true) :
    updateGuideFn registry env guide update clear st =
      (.raised (.keyError guide), st, []) := by
  unfold updateGuideFn
  have hmem' : guide ∉ registry := by simpa using hmem
  have h : fetchStep registry env guide update =
      .early (.raised (.keyError guide)) [] := by
    unfold fetchStep
    rcases hbranch with h | h <;> simp [h, hmem']
  rw [h]
  rfl

/-- Witness for C5: a forced refresh with an unregistered name raises the
lookup error. -/
theorem c5_witness :
    updateGuideFn ["g"] (cacheEnv (some [featA])) "zz" true true emptyStore =
      (.raised (.keyError "zz"), emptyStore, []) :=
  c5_amended_lookup_only_on_fetch ["g"] (cacheEnv (some [featA])) "zz" true true
    emptyStore (by decide) (Or.inr rfl)

/-- Claim C6: when the fetch branch runs for a registered guide and the HTTP
GET fails with a caught error class, the call returns with a warning logged,
no exception, and the store exactly as before. -/
theorem c6_fetch_error_skips_unchanged (registry : List String) (env : GuideEnv)
    (guide : String) (update clear : Bool) (st : Store)
    (hmem : registry.contains guide = true)
    (hbranch : env.geojsonExists = false ∨ update = true)
    (hfetch : env.fetch = .urlError) :
    updateGuideFn registry env guide update clear st =
      (.skippedFetchError, st, [(LogLevel.warn, "Could not get web guide data:")]) := by
  unfold updateGuideFn
  have hmem' : guide ∈ registry := by simpa using hmem
  have h : fetchStep registry env guide update =
      .early .skippedFetchError [(LogLevel.warn, "Could not get web guide data:")] := by
    unfold fetchStep
    rcases hbranch with h | h <;> simp [h, hmem', hfetch]
  rw [h]
  rfl

/-- Witness for C6: concrete fetch failure with no cache. -/
theorem c6_witness :
    updateGuideFn ["g"] fetchFailEnv "g" false true emptyStore =
      (.skippedFetchError, emptyStore,
        [(LogLevel.warn, "Could not get web guide data:")]) :=
  c6_fetch_error_skips_unchanged ["g"] fetchFailEnv "g" false true emptyStore
    (by decide) (Or.inl rfl) rfl

/-- Claim C7: when the file that gets loaded parses to a collection with
zero features, the call logs a warning and returns with the store exactly as
before — no layer or geoobject is created or deleted. -/
theorem c7_empty_features_no_mutation (registry : List String) (env : GuideEnv)
    (guide : String) (update clear : Bool) (st : Store) (logs : List LogEntry)
    (h : fetchStep registry env guide update = .proceed (some []) logs) :
    updateGuideFn registry env guide update clear st =
      (.skippedNoFeatures, st, logs ++ [(LogLevel.warn, "No features found!")]) := by
  unfold updateGuideFn
  rw [h]
  rfl

/-- Witness for C7: concrete empty-feature cache. -/
theorem c7_witness :
    updateGuideFn ["g"] (cacheEnv (some [])) "g" false true emptyStore =
      (.skippedNoFeatures, emptyStore,
        [] ++ [(LogLevel.warn, "No features found!")]) :=
  c7_empty_features_no_mutation ["g"] (cacheEnv (some [])) "g" false true
    emptyStore [] rfl

/-- Claim C8, counterexample: a non-zero tool exit status is NOT "caught and
logged as an error" — `_runcommand` never inspects the exit code, returns
`True` and emits no error-level log entry. -/
theorem c8_counterexample :
    (runcommand (.exited 1)).1 = true ∧
    ∀ e ∈ (runcommand (.exited 1)).2, e.1 ≠ LogLevel.error := by
  decide

/-- Claim C8 as amended: a spawn failure is caught and logged as an error
(returning `False`); a non-zero exit is not detected at all (the command is
reported successful with no error log); and in every case the tool outcome
has no effect on the result or the resulting store of `updateGuide` — the
pipeline always continues to the load step with whatever file exists. -/
theorem c8_amended_tool_failure_nonfatal :
    (runcommand .spawnError =
      (false, [(LogLevel.debug, "Executing command: "),
               (LogLevel.error, "Problem during gdal execution: ")])) ∧
    (∀ c, runcommand (.exited c) = (true, [(LogLevel.debug, "Executing command: ")])) ∧
    (∀ (registry : List String) (env : GuideEnv) (t : ToolOutcome) (guide : String)
        (update clear : Bool) (st : Store),
      (updateGuideFn registry { env with tool := t } guide update clear st).1 =
        (updateGuideFn registry env guide update clear st).1 ∧
      (updateGuideFn registry { env with tool := t } guide update clear st).2.1 =
        (updateGuideFn registry env guide update clear st).2.1) := by
  refine ⟨rfl, fun c => rfl, ?_⟩
  intro registry env t guide update clear st
  rcases fetchStep_tool registry env t guide update with heq | ⟨file, lA, lB, hA, hB⟩
  · unfold updateGuideFn
    rw [heq]
    exact ⟨rfl, rfl⟩
  · unfold updateGuideFn
    rw [hA, hB]
    exact loadStep_logs_indep guide clear st file lA lB

/-- Claim C9: when the loaded collection contains a feature lacking the
`Name` property, the call raises the unguarded KeyError during record
construction, before the single bulk-insert — the resulting store contains
no geoobject that was not already present. -/
theorem c9_missing_name_aborts_before_insert (registry : List String)
    (env : GuideEnv) (guide : String) (update clear : Bool) (st : Store)
    (features : List Feature) (logs : List LogEntry) (f : Feature)
    (hstep : fetchStep registry env guide update = .proceed (some features) logs)
    (hf : f ∈ features) (hn : hasName f = false) :
    (updateGuideFn registry env guide update clear st).1 =
      .raised (.keyError "Name") ∧
    ∀ o ∈ (updateGuideFn registry env guide update clear st).2.1.geoobjects,
      o ∈ st.geoobjects := by
  unfold updateGuideFn
  rw [hstep]
  have h0 : (features.length == 0) = false := by
    cases features with
    | nil => cases hf
    | cons a l => simp
  simp only [loadStep]
  rw [if_neg (by simp [h0])]
  exact storeStep_missing guide clear features st f hf hn

/-- Witness for C9: concrete nameless feature against the seeded store. -/
theorem c9_witness :
    (updateGuideFn ["g"] (cacheEnv (some [featNoName])) "g" false true
      seededStore).1 = .raised (.keyError "Name") ∧
    ∀ o ∈ (updateGuideFn ["g"] (cacheEnv (some [featNoName])) "g" false true
        seededStore).2.1.geoobjects, o ∈ seededStore.geoobjects :=
  c9_missing_name_aborts_before_insert ["g"] (cacheEnv (some [featNoName])) "g"
    false true seededStore [featNoName] [] featNoName rfl (by decide) (by decide)

/-- Claim C10: during the fetch step only `URLError`/`HTTPError` are caught;
any other exception while reading/decoding the response (`fetchOther`) or
writing the KML cache file (`writeError`) propagates out of `updateGuide`
with the store untouched, and hence out of `updateAll`, aborting it. -/
theorem c10_uncontained_exceptions_escape (guide : String) (gs : List String)
    (env : String → GuideEnv) (st : Store)
    (hex : (env guide).geojsonExists = false) :
    ((env guide).fetch = .otherExc →
      updateGuideFn (guide :: gs) (env guide) guide false true st =
        (.raised .fetchOther, st, []) ∧
      (updateGuidesFn (guide :: gs) env st).1 = some .fetchOther) ∧
    ((env guide).fetch = .ok → (env guide).kmlWriteOk = false →
      updateGuideFn (guide :: gs) (env guide) guide false true st =
        (.raised .writeError, st, []) ∧
      (updateGuidesFn (guide :: gs) env st).1 = some .writeError) := by
  have hmem : guide ∈ guide :: gs := by simp
  constructor
  · intro hfe
    have h1 : updateGuideFn (guide :: gs) (env guide) guide false true st =
        (.raised .fetchOther, st, []) := by
      unfold updateGuideFn
      have h : fetchStep (guide :: gs) (env guide) guide false =
          .early (.raised .fetchOther) [] := by
        unfold fetchStep
        simp [hex, hfe, hmem]
      rw [h]
      rfl
    have h2 : (updateGuideFn (guide :: gs) (env guide) guide false true st).1 =
        .raised .fetchOther := by rw [h1]
    refine ⟨h1, ?_⟩
    simp [updateGuidesFn, runGuides, h2]
  · intro hfe hkw
    have h1 : updateGuideFn (guide :: gs) (env guide) guide false true st =
        (.raised .writeError, st, []) := by
      unfold updateGuideFn
      have h : fetchStep (guide :: gs) (env guide) guide false =
          .early (.raised .writeError) [] := by
        unfold fetchStep
        simp [hex, hfe, hkw, hmem]
      rw [h]
      rfl
    have h2 : (updateGuideFn (guide :: gs) (env guide) guide false true st).1 =
        .raised .writeError := by rw [h1]
    refine ⟨h1, ?_⟩
    simp [updateGuidesFn, runGuides, h2]

/-- Witness for C10: a single-guide registry whose fetch raises an uncaught
exception class; it escapes `updateAll`. -/
theorem c10_witness :
    (updateGuidesFn ["g"] allOtherExcEnvs emptyStore).1 = some .fetchOther :=
  ((c10_uncontained_exceptions_escape "g" [] allOtherExcEnvs emptyStore rfl).1 rfl).2

end Guides
